import Mathlib

/-!
Verification of the MemGPT credential store and record data model
(`memgpt/credentials.py`, `memgpt/data_types.py`) as a shallow embedding.

Python machine integers are modelled as `Int`, Python `None`-able strings as
`Option String`, fallible operations as `Except String _` carrying the
exception message.  `configparser` state is modelled as an ordered
section/key/value association list; writing a config to disk and reading it
back is modelled as the identity on that structure.
-/

deriving instance DecidableEq for Except

/-- Python list subscription `xs[i]`: a negative index is taken from the end
(one wrap only); an index out of range raises `IndexError`. -/
def pyGetItem (xs : List String) (i : Int) : Except String String :=
  let j : Int := if i < 0 then i + xs.length else i
  if 0 ≤ j ∧ j < xs.length then .ok (xs.getD j.toNat "") else .error "IndexError: list index out of range"

/-- Python `str.split(",")` on the character list: splitting on a single
comma, where the empty string yields `[""]` and adjacent commas yield empty
pieces (matching CPython semantics for a one-character separator). -/
def pySplitCommaAux : List Char → List (List Char)
  | [] => [[]]
  | c :: rest =>
    let r := pySplitCommaAux rest
    if c = ',' then [] :: r
    else
      match r with
      | [] => [[c]]
      | g :: gs => (c :: g) :: gs

/-- Python `value.split(",")` as used in `MemGPTCredentials.__getattribute__`
(`keys = [key for key in value.split(",")]`). -/
def pySplitComma (value : String) : List String :=
  (pySplitCommaAux value.toList).map fun cs => String.mk cs

/-- The tuple `KEY_NAMES = ("openai_key", "azure_key", "openllm_key")` from
`memgpt/credentials.py`. -/
def KEY_NAMES : List String := ["openai_key", "azure_key", "openllm_key"]

/-- The `MemGPTCredentials` dataclass fields (`memgpt/credentials.py`).
The non-`Optional` Python fields (`openai_auth_type`, `azure_auth_type`) are
still modelled as `Option String` because the dataclass does not enforce the
annotation; their defaults are the dataclass defaults.  `credentials_path`
is the resolved file location and plays no role in the persisted contents,
so it is kept outside this structure (persistence functions take the config
structure directly). -/
structure MemGPTCredentials where
  _key_num : Int := 0
  openai_auth_type : Option String := some "bearer_token"
  openai_key : Option String := none
  azure_auth_type : Option String := some "api_key"
  azure_key : Option String := none
  azure_version : Option String := none
  azure_endpoint : Option String := none
  azure_deployment : Option String := none
  azure_embedding_version : Option String := none
  azure_embedding_endpoint : Option String := none
  azure_embedding_deployment : Option String := none
  openllm_auth_type : Option String := none
  openllm_key : Option String := none
deriving DecidableEq, Repr

/-- Plain (non-intercepted) attribute read `super().__getattribute__(prop)`
for the string-valued credential fields. -/
def MemGPTCredentials.rawGet (s : MemGPTCredentials) (prop : String) : Option String :=
  if prop = "openai_auth_type" then s.openai_auth_type
  else if prop = "openai_key" then s.openai_key
  else if prop = "azure_auth_type" then s.azure_auth_type
  else if prop = "azure_key" then s.azure_key
  else if prop = "azure_version" then s.azure_version
  else if prop = "azure_endpoint" then s.azure_endpoint
  else if prop = "azure_deployment" then s.azure_deployment
  else if prop = "azure_embedding_version" then s.azure_embedding_version
  else if prop = "azure_embedding_endpoint" then s.azure_embedding_endpoint
  else if prop = "azure_embedding_deployment" then s.azure_embedding_deployment
  else if prop = "openllm_auth_type" then s.openllm_auth_type
  else if prop = "openllm_key" then s.openllm_key
  else none

/-- The method `MemGPTCredentials._get_keys`: the rotation-bypassing accessor; returns
the raw stored key string for a key-field name, `None` (implicitly)
otherwise. -/
def MemGPTCredentials._get_keys (s : MemGPTCredentials) (key_name : String) : Option String :=
  if key_name ∈ KEY_NAMES then s.rawGet key_name else none

/-- The key-issuance core of `MemGPTCredentials.__getattribute__` for a
non-`None` key-field value: split on commas, advance the counter
(`number + 1 if number + 1 < len(keys) else 0`), store it, and return
`keys[number]` (the `len(keys) == 0` branch returning `None` is kept for
fidelity although a split list is never empty).  Returns the read result and
the new `_key_num`. -/
def issueKeyFrom (keys : List String) (key_num : Int) : Except String (Option String) × Int :=
  let number : Int := if key_num + 1 < (keys.length : Int) then key_num + 1 else 0
  if keys.length ≠ 0 then
    match pyGetItem keys number with
    | .ok k => (.ok (some k), number)
    | .error e => (.error e, number)
  else (.ok none, number)

def issueKey (value : String) (key_num : Int) : Except String (Option String) × Int :=
  issueKeyFrom (pySplitComma value) key_num

/-- The override `MemGPTCredentials.__getattribute__(prop)`: a `None` value or a field
outside `KEY_NAMES` passes through unchanged; a non-`None` key field is
rotated via `issueKey`, mutating `_key_num`. -/
def MemGPTCredentials.getattribute (s : MemGPTCredentials) (prop : String) :
    Except String (Option String) × MemGPTCredentials :=
  match s.rawGet prop with
  | none => (.ok none, s)
  | some v =>
    if prop ∈ KEY_NAMES then
      let r := issueKey v s._key_num
      (r.1, { s with _key_num := r.2 })
    else (.ok (some v), s)

/-- The state after `n + 1` successive reads of attribute `prop`, together
with the last read's result. -/
def readKeyN (s : MemGPTCredentials) (prop : String) : Nat → Except String (Option String) × MemGPTCredentials
  | 0 => s.getattribute prop
  | n + 1 => (readKeyN s prop n).2.getattribute prop

/-- A `configparser.ConfigParser` in memory: an ordered list of sections,
each an ordered list of `key = value` pairs. -/
abbrev ConfigParser := List (String × List (String × String))

/-- Write `key = v` into a section's item list, updating in place if the key
exists, appending otherwise. -/
def setItem (items : List (String × String)) (key v : String) : List (String × String) :=
  match items with
  | [] => [(key, v)]
  | (k, w) :: rest => if k = key then (k, v) :: rest else (k, w) :: setItem rest key v

/-- Write `key = v` under `section`, creating the section if absent. -/
def setSection (config : ConfigParser) (sec key v : String) : ConfigParser :=
  match config with
  | [] => [(sec, [(key, v)])]
  | (s, items) :: rest =>
    if s = sec then (s, setItem items key v) :: rest else (s, items) :: setSection rest sec key v

/-- Modelled from the spec: `set_field(config, section, key, value)` from
`memgpt/config.py` (not part of the excerpt).  Per §4.1 it is a no-op (does
not create the section or key) when `value is None`; otherwise it creates
the section if absent and writes the value under the key. -/
def set_field (config : ConfigParser) (sec key : String) (value : Option String) : ConfigParser :=
  match value with
  | none => config
  | some v => setSection config sec key v

/-- The empty-string-to-unset normalization `get_field` applies to the
stored value. -/
def normalizeField (o : Option String) : Option String :=
  match o with
  | some v => if v = "" then none else some v
  | none => none

/-- Modelled from the spec: `get_field(config, section, key)` from
`memgpt/config.py` (not part of the excerpt).  Per §4.1 it returns `None`
if the section or key is absent, or if the key exists but its string value
is empty; otherwise the raw string. -/
def get_field (config : ConfigParser) (sec key : String) : Option String :=
  normalizeField ((config.lookup sec).bind fun items => items.lookup key)

/-- Raw lookup into the config structure (no empty-string normalization):
what literally stands in the written file under `section`/`key`. -/
def cfgLookup (config : ConfigParser) (sec key : String) : Option String :=
  (config.lookup sec).bind fun items => items.lookup key

/-- The method `MemGPTCredentials.save` (`memgpt/credentials.py`): builds a fresh
config, writes each provider group's `auth_type` and key plus the Azure
endpoint/version/deployment fields, and returns the written config.  Key
fields are read through the rotation-bypassing `_get_keys`; the other reads
are plain attribute reads, which the `__getattribute__` override passes
through unchanged (`getattribute_passthrough` below), so `save` leaves the
store unchanged — the returned store is the input store. -/
def MemGPTCredentials.save (s : MemGPTCredentials) : ConfigParser × MemGPTCredentials :=
  let config : ConfigParser := []
  let config := set_field config "openai" "auth_type" (s.rawGet "openai_auth_type")
  let config := set_field config "openai" "key" (s._get_keys "openai_key")
  let config := set_field config "azure" "auth_type" (s.rawGet "azure_auth_type")
  let config := set_field config "azure" "key" (s._get_keys "azure_key")
  let config := set_field config "azure" "version" (s.rawGet "azure_version")
  let config := set_field config "azure" "endpoint" (s.rawGet "azure_endpoint")
  let config := set_field config "azure" "deployment" (s.rawGet "azure_deployment")
  let config := set_field config "azure" "embedding_version" (s.rawGet "azure_embedding_version")
  let config := set_field config "azure" "embedding_endpoint" (s.rawGet "azure_embedding_endpoint")
  let config := set_field config "azure" "embedding_deployment" (s.rawGet "azure_embedding_deployment")
  let config := set_field config "openllm" "auth_type" (s.rawGet "openllm_auth_type")
  let config := set_field config "openllm" "key" (s._get_keys "openllm_key")
  (config, s)

/-- The existing-file branch of `MemGPTCredentials.load`: read each typed
field via `get_field`, drop the `None` entries, and construct the store with
the remaining entries as overrides over the dataclass defaults
(`openai_auth_type` defaults to `"bearer_token"`, `azure_auth_type` to
`"api_key"`, `_key_num` to `0`; all other fields default to `None`). -/
def MemGPTCredentials.load_from (config : ConfigParser) : MemGPTCredentials :=
  { _key_num := 0
    openai_auth_type := some ((get_field config "openai" "auth_type").getD "bearer_token")
    openai_key := get_field config "openai" "key"
    azure_auth_type := some ((get_field config "azure" "auth_type").getD "api_key")
    azure_key := get_field config "azure" "key"
    azure_version := get_field config "azure" "version"
    azure_endpoint := get_field config "azure" "endpoint"
    azure_deployment := get_field config "azure" "deployment"
    azure_embedding_version := get_field config "azure" "embedding_version"
    azure_embedding_endpoint := get_field config "azure" "embedding_endpoint"
    azure_embedding_deployment := get_field config "azure" "embedding_deployment"
    openllm_auth_type := get_field config "openllm" "auth_type"
    openllm_key := get_field config "openllm" "key" }

/-- Fields the round-trip claim needs to be restricted to: no persisted
field holds the empty string (the codec reads `""` back as unset), and the
two auth-type fields with non-`None` dataclass defaults are non-`None`
(a `None` there would be re-materialized as the default on load). -/
def MemGPTCredentials.wellFormed (s : MemGPTCredentials) : Prop :=
  s.openai_auth_type ≠ some "" ∧ s.openai_key ≠ some "" ∧
  s.azure_auth_type ≠ some "" ∧ s.azure_key ≠ some "" ∧
  s.azure_version ≠ some "" ∧ s.azure_endpoint ≠ some "" ∧
  s.azure_deployment ≠ some "" ∧ s.azure_embedding_version ≠ some "" ∧
  s.azure_embedding_endpoint ≠ some "" ∧ s.azure_embedding_deployment ≠ some "" ∧
  s.openllm_auth_type ≠ some "" ∧ s.openllm_key ≠ some "" ∧
  s.openai_auth_type ≠ none ∧ s.azure_auth_type ≠ none

instance (s : MemGPTCredentials) : Decidable s.wellFormed := by
  unfold MemGPTCredentials.wellFormed
  infer_instance

/-- A Python value that can be passed as the `id` argument of a record
constructor: `None`, a string, an actual `uuid.UUID` object (carrying its
128-bit value), or the Python builtin function `id` (which `Document.__init__`
passes by referring to the bare name `id`). -/
inductive PyId where
  | pyNone
  | pyStr (s : String)
  | pyUUID (u : Nat)
  | pyBuiltinId
deriving DecidableEq, Repr

/-- The constructor `Record.__init__(id)` (`memgpt/data_types.py`): if `id is None` a fresh
UUID (the `fresh` argument, standing for `uuid.uuid4()`) is assigned,
otherwise the argument itself is assigned unchanged — no parsing.  Then
`assert isinstance(self.id, uuid.UUID)` fails unless the assigned value is
an actual `uuid.UUID` object. -/
def Record.init (fresh : Nat) (id : PyId) : Except String PyId :=
  let assigned := match id with
    | .pyNone => PyId.pyUUID fresh
    | x => x
  match assigned with
  | .pyUUID u => .ok (.pyUUID u)
  | _ => .error "AssertionError: UUID must be a UUID type"

/-- A constructed `Message` (only the fields relevant to the identity
contract are carried; the rest are stored verbatim strings/options). -/
structure Message where
  id : PyId
  user_id : String
  agent_id : String
  role : String
  text : String
  model : String
deriving DecidableEq, Repr

/-- The constructor `Message.__init__` (`memgpt/data_types.py`): forwards its `id` argument
(`None` or a value) to `Record.__init__` via `super().__init__(id)`, then
stores the remaining fields. -/
def Message.init (fresh : Nat) (user_id agent_id role text model : String)
    (id : PyId) : Except String Message := do
  let rid ← Record.init fresh id
  .ok { id := rid, user_id := user_id, agent_id := agent_id, role := role, text := text, model := model }

/-- A constructed `Document`. -/
structure Document where
  id : PyId
  user_id : String
  text : String
  document_id : Option String
  data_source : String
deriving DecidableEq, Repr

/-- The constructor `Document.__init__` (`memgpt/data_types.py`): its parameter is named
`document_id`, yet it calls `super().__init__(id)` — inside the method the
bare name `id` resolves to the Python builtin function `id`, so the base
constructor always receives `PyId.pyBuiltinId`. -/
def Document.init (fresh : Nat) (user_id text data_source : String)
    (document_id : Option String) : Except String Document := do
  let rid ← Record.init fresh .pyBuiltinId
  .ok { id := rid, user_id := user_id, text := text, document_id := document_id, data_source := data_source }

/-- The base `object.__init__` called explicitly with positional arguments beyond
`self` from a class that overrides `__init__`: raises `TypeError` unless the
argument list is empty. -/
def objectInit (args : List PyId) : Except String Unit :=
  if args.isEmpty then .ok () else .error "TypeError: object.__init__() takes exactly one argument (the instance to initialize)"

/-- A constructed `Source`.  Note the class never assigns `self.id`. -/
structure Source where
  name : String
  user_id : String
  created_at : Option String
deriving DecidableEq, Repr

/-- The constructor `Source.__init__` (`memgpt/data_types.py`): `Source` has no base class
(it does not inherit from `Record`), so `super()` is `object`, and
`super().__init__(id)` passes one positional argument to `object.__init__`,
which raises `TypeError`; the field assignments below it are unreachable. -/
def Source.init (user_id name : String) (created_at : Option String)
    (id : Option String) : Except String Source := do
  let _ ← objectInit [match id with | none => PyId.pyNone | some s => PyId.pyStr s]
  .ok { name := name, user_id := user_id, created_at := created_at }

/-- Whether a string is a canonically formatted UUID: 36 characters,
hyphens at positions 8, 13, 18 and 23, hexadecimal digits elsewhere. -/
def isValidUUIDString (s : String) : Bool :=
  let cs := s.toList
  cs.length = 36 &&
    (List.range 36).all fun i =>
      if i = 8 ∨ i = 13 ∨ i = 18 ∨ i = 23 then cs.getD i ' ' = '-'
      else (cs.getD i ' ').isDigit || ((cs.getD i ' ').toLower ∈ ['a', 'b', 'c', 'd', 'e', 'f'])

/-- A Python attribute value held by an `LLMConfig` instance. -/
inductive PyVal where
  | pyNone
  | pyStr (s : String)
  | pyInt (n : Int)
deriving DecidableEq, Repr

/-- Lift an optional string to a Python attribute value. -/
def PyVal.ofOptStr : Option String → PyVal
  | none => .pyNone
  | some s => .pyStr s

/-- Write an attribute into an instance dictionary (update or append). -/
def setAttr (attrs : List (String × PyVal)) (name : String) (v : PyVal) : List (String × PyVal) :=
  match attrs with
  | [] => [(name, v)]
  | (k, w) :: rest => if k = name then (k, v) :: rest else (k, w) :: setAttr rest name v

/-- Python attribute read `self.<name>`: looks the name up in the instance
dictionary and raises `AttributeError` when it is absent. -/
def lookupAttr (attrs : List (String × PyVal)) (name : String) : Except String PyVal :=
  match attrs.lookup name with
  | some v => .ok v
  | none => .error ("AttributeError: " ++ name)

/-- Modelled from the spec: the static `LLM_MAX_TOKENS` model-name→max-token
table from `memgpt/constants.py` (not part of the excerpt), with entries for
known model names (including `"gpt-4"`) and a `"DEFAULT"` entry (§3, §8).
The numeric values are representative; no claim depends on them. -/
def LLM_MAX_TOKENS : List (String × Int) :=
  [("DEFAULT", 8192), ("gpt-4", 8192), ("gpt-4-32k", 32768), ("gpt-3.5-turbo", 4096)]

/-- The constructor `LLMConfig.__init__` (`memgpt/data_types.py`): assigns the five fields
into the instance dictionary, then, when `context_window is None`, evaluates
`LLM_MAX_TOKENS[self.default_model] if self.default_model in LLM_MAX_TOKENS
else LLM_MAX_TOKENS["DEFAULT"]` — the read of `self.default_model` comes
first, and no attribute of that name was ever assigned. -/
def LLMConfig.init (model model_endpoint_type model_endpoint model_wrapper : Option String)
    (context_window : Option Int) : Except String (List (String × PyVal)) :=
  let self : List (String × PyVal) := []
  let self := setAttr self "model" (PyVal.ofOptStr model)
  let self := setAttr self "model_endpoint_type" (PyVal.ofOptStr model_endpoint_type)
  let self := setAttr self "model_endpoint" (PyVal.ofOptStr model_endpoint)
  let self := setAttr self "model_wrapper" (PyVal.ofOptStr model_wrapper)
  let self := setAttr self "context_window"
    (match context_window with | none => PyVal.pyNone | some n => PyVal.pyInt n)
  match context_window with
  | none => do
    let dm ← lookupAttr self "default_model"
    let inTable := match dm with
      | .pyStr s => (LLM_MAX_TOKENS.lookup s).isSome
      | _ => false
    let tokens : Int :=
      if inTable then
        match dm with
        | .pyStr s => (LLM_MAX_TOKENS.lookup s).getD 0
        | _ => 0
      else (LLM_MAX_TOKENS.lookup "DEFAULT").getD 0
    .ok (setAttr self "context_window" (.pyInt tokens))
  | some cw => .ok (setAttr self "context_window" (.pyInt cw))

/-- What a path names on the file system. -/
inductive FSEntry where
  | file
  | dir
  | absent
deriving DecidableEq, Repr

/-- Modelled from the spec: the fixed default credentials location
`os.path.join(MEMGPT_DIR, "credentials")`; `MEMGPT_DIR` comes from
`memgpt/constants.py` (not part of the excerpt), "a fixed default path under
a tool-specific configuration directory" (§6). -/
def defaultCredentialsPath : String := "MEMGPT_DIR/credentials"

/-- Path resolution shared by `load` and `exists`: `os.getenv` returns the
environment value or `None`, and `if not credentials_path` falls back to the
default both for `None` and for the empty string (Python falsiness). -/
def resolveCredentialsPath (env : Option String) : String :=
  match env with
  | some p => if p = "" then defaultCredentialsPath else p
  | none => defaultCredentialsPath

/-- The static method `MemGPTCredentials.exists` (`memgpt/credentials.py`): resolve the path
(environment override, else default), `assert` that it is not a directory
(failure carries the config-error message), then report `os.path.exists`.
The file system is an explicit read-only argument; nothing is written. -/
def MemGPTCredentials.existsCheck (env : Option String) (fs : String → FSEntry) : Except String Bool :=
  let credentials_path := resolveCredentialsPath env
  if fs credentials_path = .dir then
    .error ("Credentials path " ++ credentials_path ++ " cannot be set to a directory.")
  else .ok (decide (fs credentials_path ≠ .absent))

/- ### Helper lemmas about the config structure and attribute access -/

/-- Sanity checks that the comma-split model matches CPython's
`str.split(",")` on representative inputs, and the UUID-format validator on
a valid and an invalid string. -/
lemma model_sanity :
    pySplitComma "A,B,C" = ["A", "B", "C"] ∧
    pySplitComma "" = [""] ∧
    pySplitComma "A" = ["A"] ∧
    pySplitComma "a,,b" = ["a", "", "b"] ∧
    isValidUUIDString "12345678-1234-5678-1234-567812345678" = true ∧
    isValidUUIDString "not-a-uuid" = false := by
  refine ⟨by decide, by decide, by decide, by decide, by decide, by decide⟩

lemma lookup_setItem_self (items : List (String × String)) (k v : String) :
    (setItem items k v).lookup k = some v := by
  induction items with
  | nil => simp [setItem, List.lookup]
  | cons hd tl ih =>
    obtain ⟨a, b⟩ := hd
    by_cases h : a = k
    · subst h
      simp [setItem, List.lookup]
    · simp only [setItem, if_neg h, List.lookup_cons]
      have : (k == a) = false := by simp [Ne.symm h]
      simp [this, ih]

lemma lookup_setItem_ne (items : List (String × String)) (k k' v : String) (h : k' ≠ k) :
    (setItem items k v).lookup k' = items.lookup k' := by
  induction items with
  | nil =>
    have : (k' == k) = false := by simp [h]
    simp [setItem, List.lookup, this]
  | cons hd tl ih =>
    obtain ⟨a, b⟩ := hd
    by_cases ha : a = k
    · subst ha
      have : (k' == a) = false := by simp [h]
      simp [setItem, List.lookup_cons, this]
    · simp only [setItem, if_neg ha, List.lookup_cons]
      cases hk : (k' == a) <;> simp [ih]

lemma lookup_setSection_self (c : ConfigParser) (sec k v : String) :
    (setSection c sec k v).lookup sec = some (setItem ((c.lookup sec).getD []) k v) := by
  induction c with
  | nil => simp [setSection, List.lookup, setItem]
  | cons hd tl ih =>
    obtain ⟨a, items⟩ := hd
    by_cases h : a = sec
    · subst h
      simp [setSection, List.lookup]
    · have hne : (sec == a) = false := by simp [Ne.symm h]
      simp [setSection, if_neg h, List.lookup_cons, hne, ih]

lemma lookup_setSection_ne (c : ConfigParser) (sec sec' k v : String) (h : sec' ≠ sec) :
    (setSection c sec k v).lookup sec' = c.lookup sec' := by
  induction c with
  | nil =>
    have : (sec' == sec) = false := by simp [h]
    simp [setSection, List.lookup, this]
  | cons hd tl ih =>
    obtain ⟨a, items⟩ := hd
    by_cases ha : a = sec
    · subst ha
      have : (sec' == a) = false := by simp [h]
      simp [setSection, List.lookup_cons, this]
    · simp only [setSection, if_neg ha, List.lookup_cons]
      cases hk : (sec' == a) <;> simp [ih]

lemma cfgLookup_nil (sec k : String) : cfgLookup [] sec k = none := rfl

lemma cfgLookup_set_field_same (c : ConfigParser) (sec k : String) (v : Option String) :
    cfgLookup (set_field c sec k v) sec k = v.or (cfgLookup c sec k) := by
  cases v with
  | none => simp [set_field, Option.none_or]
  | some w =>
    show cfgLookup (setSection c sec k w) sec k = some w
    unfold cfgLookup
    rw [lookup_setSection_self]
    simp [lookup_setItem_self]

lemma cfgLookup_set_field_ne (c : ConfigParser) (sec sec' k k' : String) (v : Option String)
    (h : ¬(sec' = sec ∧ k' = k)) :
    cfgLookup (set_field c sec' k' v) sec k = cfgLookup c sec k := by
  cases v with
  | none => rfl
  | some w =>
    show cfgLookup (setSection c sec' k' w) sec k = cfgLookup c sec k
    by_cases hs : sec' = sec
    · subst hs
      have hk : k' ≠ k := fun hkk => h ⟨rfl, hkk⟩
      unfold cfgLookup
      rw [lookup_setSection_self]
      have hbeq : (k == k') = false := by simp [Ne.symm hk]
      cases hc : c.lookup sec' with
      | none => simp [lookup_setItem_ne _ _ _ _ (Ne.symm hk), List.lookup, setItem, hbeq]
      | some items => simp [lookup_setItem_ne _ _ _ _ (Ne.symm hk)]
    · unfold cfgLookup
      rw [lookup_setSection_ne _ _ _ _ _ (Ne.symm hs)]

lemma get_field_eq_cfgLookup (c : ConfigParser) (sec k : String) :
    get_field c sec k = normalizeField (cfgLookup c sec k) := rfl

lemma cfg_save_openai_auth_type (s : MemGPTCredentials) :
    cfgLookup (s.save).1 "openai" "auth_type" = s.openai_auth_type := by
  simp [MemGPTCredentials.save, cfgLookup_set_field_ne, cfgLookup_set_field_same,
    cfgLookup_nil, Option.or_none, MemGPTCredentials.rawGet]

lemma cfg_save_openai_key (s : MemGPTCredentials) :
    cfgLookup (s.save).1 "openai" "key" = s.openai_key := by
  simp [MemGPTCredentials.save, cfgLookup_set_field_ne, cfgLookup_set_field_same,
    cfgLookup_nil, Option.or_none, MemGPTCredentials._get_keys, MemGPTCredentials.rawGet, KEY_NAMES]

lemma cfg_save_azure_auth_type (s : MemGPTCredentials) :
    cfgLookup (s.save).1 "azure" "auth_type" = s.azure_auth_type := by
  simp [MemGPTCredentials.save, cfgLookup_set_field_ne, cfgLookup_set_field_same,
    cfgLookup_nil, Option.or_none, MemGPTCredentials.rawGet]

lemma cfg_save_azure_key (s : MemGPTCredentials) :
    cfgLookup (s.save).1 "azure" "key" = s.azure_key := by
  simp [MemGPTCredentials.save, cfgLookup_set_field_ne, cfgLookup_set_field_same,
    cfgLookup_nil, Option.or_none, MemGPTCredentials._get_keys, MemGPTCredentials.rawGet, KEY_NAMES]

lemma cfg_save_azure_version (s : MemGPTCredentials) :
    cfgLookup (s.save).1 "azure" "version" = s.azure_version := by
  simp [MemGPTCredentials.save, cfgLookup_set_field_ne, cfgLookup_set_field_same,
    cfgLookup_nil, Option.or_none, MemGPTCredentials.rawGet]

lemma cfg_save_azure_endpoint (s : MemGPTCredentials) :
    cfgLookup (s.save).1 "azure" "endpoint" = s.azure_endpoint := by
  simp [MemGPTCredentials.save, cfgLookup_set_field_ne, cfgLookup_set_field_same,
    cfgLookup_nil, Option.or_none, MemGPTCredentials.rawGet]

lemma cfg_save_azure_deployment (s : MemGPTCredentials) :
    cfgLookup (s.save).1 "azure" "deployment" = s.azure_deployment := by
  simp [MemGPTCredentials.save, cfgLookup_set_field_ne, cfgLookup_set_field_same,
    cfgLookup_nil, Option.or_none, MemGPTCredentials.rawGet]

lemma cfg_save_azure_embedding_version (s : MemGPTCredentials) :
    cfgLookup (s.save).1 "azure" "embedding_version" = s.azure_embedding_version := by
  simp [MemGPTCredentials.save, cfgLookup_set_field_ne, cfgLookup_set_field_same,
    cfgLookup_nil, Option.or_none, MemGPTCredentials.rawGet]

lemma cfg_save_azure_embedding_endpoint (s : MemGPTCredentials) :
    cfgLookup (s.save).1 "azure" "embedding_endpoint" = s.azure_embedding_endpoint := by
  simp [MemGPTCredentials.save, cfgLookup_set_field_ne, cfgLookup_set_field_same,
    cfgLookup_nil, Option.or_none, MemGPTCredentials.rawGet]

lemma cfg_save_azure_embedding_deployment (s : MemGPTCredentials) :
    cfgLookup (s.save).1 "azure" "embedding_deployment" = s.azure_embedding_deployment := by
  simp [MemGPTCredentials.save, cfgLookup_set_field_ne, cfgLookup_set_field_same,
    cfgLookup_nil, Option.or_none, MemGPTCredentials.rawGet]

lemma cfg_save_openllm_auth_type (s : MemGPTCredentials) :
    cfgLookup (s.save).1 "openllm" "auth_type" = s.openllm_auth_type := by
  simp [MemGPTCredentials.save, cfgLookup_set_field_ne, cfgLookup_set_field_same,
    cfgLookup_nil, Option.or_none, MemGPTCredentials.rawGet]

lemma cfg_save_openllm_key (s : MemGPTCredentials) :
    cfgLookup (s.save).1 "openllm" "key" = s.openllm_key := by
  simp [MemGPTCredentials.save, cfgLookup_set_field_ne, cfgLookup_set_field_same,
    cfgLookup_nil, Option.or_none, MemGPTCredentials._get_keys, MemGPTCredentials.rawGet, KEY_NAMES]

/-- The empty-string normalization of `get_field` is the identity away from
`some ""`. -/
lemma normalize_eq_self (o : Option String) (h : o ≠ some "") :
    normalizeField o = o := by
  cases o with
  | none => rfl
  | some v =>
    have hv : v ≠ "" := fun he => h (by rw [he])
    simp [normalizeField, hv]

lemma some_getD_of_ne_none (o : Option String) (d : String) (h : o ≠ none) :
    some (o.getD d) = o := by
  cases o with
  | none => exact absurd rfl h
  | some v => rfl

/-- C7: `save` writes, for each provider group, the raw un-rotated key
string exactly as stored (through the rotation-bypassing `_get_keys`)
together with the `auth_type` and provider-specific fields, and leaves the
in-memory store — in particular `_key_num` — unchanged.  The final conjunct
records that the attribute reads `save` performs on non-key fields pass
through the `__getattribute__` override without touching the store, so the
pure modelling of those reads inside `save` is faithful. -/
theorem c7_save_raw_and_frame (s : MemGPTCredentials) :
    (s.save).2 = s ∧
    (s.save).2._key_num = s._key_num ∧
    s._get_keys "openai_key" = s.openai_key ∧
    s._get_keys "azure_key" = s.azure_key ∧
    s._get_keys "openllm_key" = s.openllm_key ∧
    cfgLookup (s.save).1 "openai" "key" = s.openai_key ∧
    cfgLookup (s.save).1 "azure" "key" = s.azure_key ∧
    cfgLookup (s.save).1 "openllm" "key" = s.openllm_key ∧
    cfgLookup (s.save).1 "openai" "auth_type" = s.openai_auth_type ∧
    cfgLookup (s.save).1 "azure" "auth_type" = s.azure_auth_type ∧
    cfgLookup (s.save).1 "openllm" "auth_type" = s.openllm_auth_type ∧
    cfgLookup (s.save).1 "azure" "version" = s.azure_version ∧
    cfgLookup (s.save).1 "azure" "endpoint" = s.azure_endpoint ∧
    cfgLookup (s.save).1 "azure" "deployment" = s.azure_deployment ∧
    cfgLookup (s.save).1 "azure" "embedding_version" = s.azure_embedding_version ∧
    cfgLookup (s.save).1 "azure" "embedding_endpoint" = s.azure_embedding_endpoint ∧
    cfgLookup (s.save).1 "azure" "embedding_deployment" = s.azure_embedding_deployment ∧
    (∀ prop, prop ∉ KEY_NAMES → s.getattribute prop = (.ok (s.rawGet prop), s)) := by
  refine ⟨rfl, rfl, ?_, ?_, ?_, cfg_save_openai_key s, cfg_save_azure_key s,
    cfg_save_openllm_key s, cfg_save_openai_auth_type s, cfg_save_azure_auth_type s,
    cfg_save_openllm_auth_type s, cfg_save_azure_version s, cfg_save_azure_endpoint s,
    cfg_save_azure_deployment s, cfg_save_azure_embedding_version s,
    cfg_save_azure_embedding_endpoint s, cfg_save_azure_embedding_deployment s, ?_⟩
  · simp [MemGPTCredentials._get_keys, MemGPTCredentials.rawGet, KEY_NAMES]
  · simp [MemGPTCredentials._get_keys, MemGPTCredentials.rawGet, KEY_NAMES]
  · simp [MemGPTCredentials._get_keys, MemGPTCredentials.rawGet, KEY_NAMES]
  · intro prop hprop
    unfold MemGPTCredentials.getattribute
    cases hr : s.rawGet prop with
    | none => simp
    | some v => simp [hprop]

/-- C7 witness: the theorem applied to a concrete store with a rotated-away
counter and a multi-key pool; the written key is the raw pool string and the
store (counter included) is untouched, and a plain field read passes
through. -/
theorem c7_save_raw_and_frame_witness :
    ({ openai_key := some "k1,k2", _key_num := 1 } : MemGPTCredentials).save.2
      = { openai_key := some "k1,k2", _key_num := 1 } ∧
    cfgLookup ({ openai_key := some "k1,k2", _key_num := 1 } : MemGPTCredentials).save.1
      "openai" "key" = some "k1,k2" ∧
    ({ openai_key := some "k1,k2", _key_num := 1 } : MemGPTCredentials).getattribute
      "azure_version" = (.ok none, { openai_key := some "k1,k2", _key_num := 1 }) := by
  have h := c7_save_raw_and_frame { openai_key := some "k1,k2", _key_num := 1 }
  refine ⟨h.1, h.2.2.2.2.2.1, ?_⟩
  have hp := (h.2.2.2.2.2.2.2.2.2.2.2.2.2.2.2.2.2) "azure_version" (by decide)
  exact hp.trans (by decide)

/-- C4 (amended): `save()` followed by `load()` restores every persisted
field exactly, for stores whose persisted fields avoid the empty string and
whose two defaulted auth-type fields are non-`None`; `None` fields stay
`None` (no new non-`None` field), and the non-persisted rotation counter
comes back as its default `0`. -/
theorem c4_save_load_roundtrip (s : MemGPTCredentials) (h : s.wellFormed) :
    MemGPTCredentials.load_from (s.save).1 = { s with _key_num := 0 } := by
  obtain ⟨h1, h2, h3, h4, h5, h6, h7, h8, h9, h10, h11, h12, hn1, hn2⟩ := h
  have e1 : get_field (s.save).1 "openai" "auth_type" = s.openai_auth_type := by
    rw [get_field_eq_cfgLookup, cfg_save_openai_auth_type]; exact normalize_eq_self _ h1
  have e2 : get_field (s.save).1 "openai" "key" = s.openai_key := by
    rw [get_field_eq_cfgLookup, cfg_save_openai_key]; exact normalize_eq_self _ h2
  have e3 : get_field (s.save).1 "azure" "auth_type" = s.azure_auth_type := by
    rw [get_field_eq_cfgLookup, cfg_save_azure_auth_type]; exact normalize_eq_self _ h3
  have e4 : get_field (s.save).1 "azure" "key" = s.azure_key := by
    rw [get_field_eq_cfgLookup, cfg_save_azure_key]; exact normalize_eq_self _ h4
  have e5 : get_field (s.save).1 "azure" "version" = s.azure_version := by
    rw [get_field_eq_cfgLookup, cfg_save_azure_version]; exact normalize_eq_self _ h5
  have e6 : get_field (s.save).1 "azure" "endpoint" = s.azure_endpoint := by
    rw [get_field_eq_cfgLookup, cfg_save_azure_endpoint]; exact normalize_eq_self _ h6
  have e7 : get_field (s.save).1 "azure" "deployment" = s.azure_deployment := by
    rw [get_field_eq_cfgLookup, cfg_save_azure_deployment]; exact normalize_eq_self _ h7
  have e8 : get_field (s.save).1 "azure" "embedding_version" = s.azure_embedding_version := by
    rw [get_field_eq_cfgLookup, cfg_save_azure_embedding_version]; exact normalize_eq_self _ h8
  have e9 : get_field (s.save).1 "azure" "embedding_endpoint" = s.azure_embedding_endpoint := by
    rw [get_field_eq_cfgLookup, cfg_save_azure_embedding_endpoint]; exact normalize_eq_self _ h9
  have e10 : get_field (s.save).1 "azure" "embedding_deployment" = s.azure_embedding_deployment := by
    rw [get_field_eq_cfgLookup, cfg_save_azure_embedding_deployment]; exact normalize_eq_self _ h10
  have e11 : get_field (s.save).1 "openllm" "auth_type" = s.openllm_auth_type := by
    rw [get_field_eq_cfgLookup, cfg_save_openllm_auth_type]; exact normalize_eq_self _ h11
  have e12 : get_field (s.save).1 "openllm" "key" = s.openllm_key := by
    rw [get_field_eq_cfgLookup, cfg_save_openllm_key]; exact normalize_eq_self _ h12
  unfold MemGPTCredentials.load_from
  rw [e1, e2, e3, e4, e5, e6, e7, e8, e9, e10, e11, e12,
    some_getD_of_ne_none _ _ hn1, some_getD_of_ne_none _ _ hn2]

/-- C4 witness: round trip of a concrete store holding a key pool and an
Azure endpoint. -/
theorem c4_save_load_roundtrip_witness :
    MemGPTCredentials.load_from
        (({ openai_key := some "sk-a,sk-b", azure_endpoint := some "https://az",
            _key_num := 2 } : MemGPTCredentials).save).1
      = { openai_key := some "sk-a,sk-b", azure_endpoint := some "https://az",
          _key_num := 0 } :=
  c4_save_load_roundtrip
    { openai_key := some "sk-a,sk-b", azure_endpoint := some "https://az", _key_num := 2 }
    (by decide)

/-- C4 counterexample: a store whose `openllm_auth_type` is the non-null
empty string is written to the file, but `load` reads the empty string back
as unset, so the field comes back `None` — the round trip does not preserve
this non-null field. -/
theorem c4_save_load_counterexample :
    ({ openllm_auth_type := some "" } : MemGPTCredentials).openllm_auth_type = some "" ∧
    (MemGPTCredentials.load_from
        (({ openllm_auth_type := some "" } : MemGPTCredentials).save).1).openllm_auth_type
      = none := by
  constructor
  · rfl
  · decide

/- ### Key rotation -/

lemma pySplitCommaAux_ne_nil (cs : List Char) : pySplitCommaAux cs ≠ [] := by
  cases cs with
  | nil => simp [pySplitCommaAux]
  | cons c rest =>
    by_cases h : c = ','
    · simp [pySplitCommaAux, h]
    · simp only [pySplitCommaAux, if_neg h]
      cases pySplitCommaAux rest <;> simp

lemma pySplitComma_length_pos (value : String) : 1 ≤ (pySplitComma value).length := by
  have h := pySplitCommaAux_ne_nil value.toList
  have : (pySplitCommaAux value.toList).length ≠ 0 := fun hl => h (List.length_eq_zero.mp hl)
  simp only [pySplitComma, List.length_map]
  omega

lemma c2_abc_state (n : Nat) :
    readKeyN { openai_key := some "A,B,C" } "openai_key" n =
      (.ok (some (["B", "C", "A"].getD (n % 3) "")),
        { openai_key := some "A,B,C", _key_num := ((n + 1) % 3 : Nat) }) := by
  induction n with
  | zero => decide
  | succ m ih =>
    have ihs : (readKeyN { openai_key := some "A,B,C" } "openai_key" m).2 =
        { openai_key := some "A,B,C", _key_num := ((m + 1) % 3 : Nat) } := by rw [ih]
    simp only [readKeyN, ihs]
    have h3 : (m + 1) % 3 = 0 ∨ (m + 1) % 3 = 1 ∨ (m + 1) % 3 = 2 := by omega
    rcases h3 with h | h | h
    · have h2 : (m + 1 + 1) % 3 = 1 := by omega
      rw [h, h2]; decide
    · have h2 : (m + 1 + 1) % 3 = 2 := by omega
      rw [h, h2]; decide
    · have h2 : (m + 1 + 1) % 3 = 0 := by omega
      rw [h, h2]; decide

lemma c2_single_state (n : Nat) :
    readKeyN { openai_key := some "A" } "openai_key" n =
      (.ok (some "A"), { openai_key := some "A", _key_num := 0 }) := by
  induction n with
  | zero => decide
  | succ m ih =>
    have ihs : (readKeyN { openai_key := some "A" } "openai_key" m).2 =
        { openai_key := some "A", _key_num := 0 } := by rw [ih]
    simp only [readKeyN, ihs]
    decide

/-- C2: with the pool `"A,B,C"` stored in a key field and the counter at its
initial value `0`, the `n`-th successive read (counting from `0`) returns
`B, C, A, B, C, A, …` — the first read skips index 0; with the single-key
pool `"A"`, every read returns `"A"`. -/
theorem c2_rotation_sequence :
    (∀ n : Nat, (readKeyN { openai_key := some "A,B,C" } "openai_key" n).1 =
        .ok (some (["B", "C", "A"].getD (n % 3) ""))) ∧
    (∀ n : Nat, (readKeyN { openai_key := some "A" } "openai_key" n).1 =
        .ok (some "A")) :=
  ⟨fun n => by rw [c2_abc_state n], fun n => by rw [c2_single_state n]⟩

lemma issueKeyFrom_in_range (keys : List String) (k : Int) (h0 : 0 ≤ k)
    (hlt : k < (keys.length : Int)) :
    issueKeyFrom keys k =
      (.ok (some (keys.getD ((k + 1) % (keys.length : Int)).toNat "")),
        (k + 1) % (keys.length : Int)) := by
  have hn1 : 1 ≤ (keys.length : Int) := by omega
  by_cases hc : k + 1 < (keys.length : Int)
  · have hmod : (k + 1) % (keys.length : Int) = k + 1 := Int.emod_eq_of_lt (by omega) hc
    rw [hmod]
    simp only [issueKeyFrom, pyGetItem]
    split_ifs <;> first | rfl | omega
  · have heq : k + 1 = (keys.length : Int) := by omega
    have hmod : (k + 1) % (keys.length : Int) = 0 := by rw [heq]; exact Int.emod_self
    rw [hmod]
    simp only [issueKeyFrom, pyGetItem]
    split_ifs <;> first | rfl | omega

/-- C5 (amended): for a counter in the reachable range `0 ≤ key_num < n`
(`n` the pool size), a single key read issues the key at index
`(key_num + 1) mod n` and sets the counter to that index, and on that range
this index agrees with the code's `key_num + 1 if key_num + 1 < n else 0`
rule.  (Outside that range the two formulations differ; see the
counterexample.) -/
theorem c5_single_read (value : String) (key_num : Int) (h0 : 0 ≤ key_num)
    (hlt : key_num < ((pySplitComma value).length : Int)) :
    issueKey value key_num =
      (.ok (some ((pySplitComma value).getD
          ((key_num + 1) % ((pySplitComma value).length : Int)).toNat "")),
        (key_num + 1) % ((pySplitComma value).length : Int)) ∧
    (key_num + 1) % ((pySplitComma value).length : Int) =
      (if key_num + 1 < ((pySplitComma value).length : Int) then key_num + 1 else 0) := by
  constructor
  · exact issueKeyFrom_in_range (pySplitComma value) key_num h0 hlt
  · by_cases hc : key_num + 1 < ((pySplitComma value).length : Int)
    · rw [if_pos hc]; exact Int.emod_eq_of_lt (by omega) hc
    · have heq : key_num + 1 = ((pySplitComma value).length : Int) := by omega
      rw [if_neg hc, heq]; exact Int.emod_self

/-- C5 witness: pool `"A,B,C"`, counter `1`: the read issues index
`(1+1) % 3 = 2`, i.e. `"C"`, and stores counter `2`. -/
theorem c5_single_read_witness : issueKey "A,B,C" 1 = (.ok (some "C"), 2) := by
  have h := (c5_single_read "A,B,C" 1 (by decide) (by decide)).1
  exact h.trans (by decide)

/-- C5 counterexample: at counter `4` with pool `"A,B,C"` the claim's
`(key_num + 1) mod n` formula names index `2` (key `"C"`, counter `2`), but
the code's `else 0` branch issues index `0` (key `"A"`, counter `0`): the
two formulations the claim equates differ for counters `≥ n`. -/
theorem c5_single_read_counterexample :
    issueKey "A,B,C" 4 = (.ok (some "A"), 0) ∧
    ((4 : Int) + 1) % ((pySplitComma "A,B,C").length : Int) = 2 ∧
    (pySplitComma "A,B,C").getD 2 "" = "C" ∧
    issueKey "A,B,C" 4 ≠
      (.ok (some ((pySplitComma "A,B,C").getD
          ((((4 : Int) + 1) % ((pySplitComma "A,B,C").length : Int)).toNat) "")),
        ((4 : Int) + 1) % ((pySplitComma "A,B,C").length : Int)) := by
  refine ⟨by decide, by decide, by decide, by decide⟩

/-- C8: a read of a key field whose stored value is `None` returns the
null key and neither raises nor changes the store (the counter included). -/
theorem c8_none_key_read (s : MemGPTCredentials) (prop : String)
    (hk : prop ∈ KEY_NAMES) (hnone : s.rawGet prop = none) :
    s.getattribute prop = (.ok none, s) := by
  unfold MemGPTCredentials.getattribute
  rw [hnone]

/-- C8 witness: the default store has no OpenAI key configured; reading the
key field returns the null key and leaves the store untouched. -/
theorem c8_none_key_read_witness :
    ({} : MemGPTCredentials).getattribute "openai_key" = (.ok none, {}) :=
  c8_none_key_read {} "openai_key" (by decide) (by decide)

/-- C10 (amended): for a non-`None` key string and a counter with
`key_num + 1 ≥ -n` (`n` the pool size — in particular every non-negative
counter), issuance is total: the split yields at least one key and the read
returns a string, never the null result and never an error.  (For counters
with `key_num + 1 < -n` the Python list access is out of range; see the
counterexample.) -/
theorem c10_issuance_total (value : String) (key_num : Int)
    (h : -((pySplitComma value).length : Int) ≤ key_num + 1) :
    1 ≤ (pySplitComma value).length ∧
    ∃ k, (issueKey value key_num).1 = .ok (some k) := by
  have hlen := pySplitComma_length_pos value
  refine ⟨hlen, ?_⟩
  have hn1 : 1 ≤ ((pySplitComma value).length : Int) := by exact_mod_cast hlen
  unfold issueKey
  simp only [issueKeyFrom, pyGetItem]
  split_ifs <;> first | exact ⟨_, rfl⟩ | omega

/-- C10 witness: pool `"A,B"`, counter `-2` (within the amended range since
`-2 + 1 ≥ -2`): the read returns a key (`"B"`). -/
theorem c10_issuance_total_witness :
    (issueKey "A,B" (-2)).1 = .ok (some "B") ∧ 1 ≤ (pySplitComma "A,B").length :=
  ⟨by decide, (c10_issuance_total "A,B" (-2) (by decide)).1⟩

/-- C10 counterexample: with the single-key pool `"A"` and counter `-3`
(an `int` value the dataclass accepts), the computed index `-2` is strictly
less than the pool length yet the Python list access raises `IndexError`:
issuance is not total for every integer counter value. -/
theorem c10_issuance_counterexample :
    issueKey "A" (-3) = (.error "IndexError: list index out of range", -2) := by
  decide

/- ### Record model and configuration -/

/-- C1 (amended): `Record.__init__` never parses strings — construction
succeeds exactly when the supplied id is absent (fresh UUID generated) or is
already an actual `uuid.UUID` value, whose identity is then kept; any string
id, canonically UUID-formatted or not, fails the UUID-type assertion (the
spec's `ValidationError`).  The last conjunct shows the subclass
constructors (here `Message`) inherit this behavior for UUID values. -/
theorem c1_record_identity :
    (∀ fresh : Nat, Record.init fresh .pyNone = .ok (.pyUUID fresh)) ∧
    (∀ fresh u : Nat, Record.init fresh (.pyUUID u) = .ok (.pyUUID u)) ∧
    (∀ (fresh : Nat) (s : String),
      Record.init fresh (.pyStr s) = .error "AssertionError: UUID must be a UUID type") ∧
    (∀ (fresh u : Nat) (uid aid role text model : String),
      Message.init fresh uid aid role text model (.pyUUID u) =
        .ok { id := .pyUUID u, user_id := uid, agent_id := aid, role := role,
              text := text, model := model }) :=
  ⟨fun _ => rfl, fun _ _ => rfl, fun _ _ => rfl, fun _ _ _ _ _ _ _ => rfl⟩

/-- C1 counterexample: a canonically valid UUID string is still rejected —
construction with `id` equal to a valid UUID string does not succeed, because
the assertion demands a `uuid.UUID` object, not a string. -/
theorem c1_record_identity_counterexample :
    isValidUUIDString "12345678-1234-5678-1234-567812345678" = true ∧
    Message.init 0 "user-1" "agent-1" "user" "hi" "gpt-4"
        (.pyStr "12345678-1234-5678-1234-567812345678") =
      .error "AssertionError: UUID must be a UUID type" :=
  ⟨by decide, rfl⟩

/-- C6: no `Document` and no `Source` value is ever produced.
`Document.__init__` hands the base constructor the Python builtin function
`id` (not its `document_id` parameter), failing the UUID assertion for every
argument tuple; `Source.__init__` has no `Record` base, so its
`super().__init__(id)` call reaches `object.__init__` with a surplus
argument and raises `TypeError` for every argument tuple. -/
theorem c6_document_source_unconstructible :
    (∀ (fresh : Nat) (user_id text data_source : String) (document_id : Option String),
      Document.init fresh user_id text data_source document_id =
        .error "AssertionError: UUID must be a UUID type") ∧
    (∀ (user_id name : String) (created_at id : Option String),
      Source.init user_id name created_at id =
        .error "TypeError: object.__init__() takes exactly one argument (the instance to initialize)") :=
  ⟨fun _ _ _ _ _ => rfl, fun _ _ _ _ => rfl⟩

/-- C3: constructing `LLMConfig` with `context_window=None` does not derive
the context window from the `LLM_MAX_TOKENS` table — it raises
`AttributeError` because the derivation reads `self.default_model`, an
attribute that is never assigned (the constructor assigns `self.model`);
this happens for table-known and unknown model names alike.  When
`context_window` is supplied, it is stored unchanged. -/
theorem c3_llmconfig_context_window :
    LLMConfig.init (some "gpt-4") none none none none =
      .error "AttributeError: default_model" ∧
    LLMConfig.init (some "unknown-model") none none none none =
      .error "AttributeError: default_model" ∧
    LLMConfig.init none none none none (some 1234) =
      .ok [("model", .pyNone), ("model_endpoint_type", .pyNone), ("model_endpoint", .pyNone),
        ("model_wrapper", .pyNone), ("context_window", .pyInt 1234)] :=
  ⟨rfl, rfl, rfl⟩

/-- C9: `exists()` resolves the credentials path — a non-empty environment
override wins, otherwise the default path — fails with the directory
config error when the resolved path is a directory, and otherwise reports
file presence; it reads but never writes the file system (its `fs` argument
is read-only and no store state is involved). -/
theorem c9_exists_check (env : Option String) (fs : String → FSEntry) :
    (fs (resolveCredentialsPath env) = .dir →
      MemGPTCredentials.existsCheck env fs =
        .error ("Credentials path " ++ resolveCredentialsPath env ++
          " cannot be set to a directory.")) ∧
    (fs (resolveCredentialsPath env) ≠ .dir →
      MemGPTCredentials.existsCheck env fs =
        .ok (decide (fs (resolveCredentialsPath env) = .file))) ∧
    (∀ p, p ≠ "" → resolveCredentialsPath (some p) = p) ∧
    resolveCredentialsPath none = defaultCredentialsPath := by
  refine ⟨?_, ?_, ?_, rfl⟩
  · intro h
    simp [MemGPTCredentials.existsCheck, h]
  · intro h
    unfold MemGPTCredentials.existsCheck
    rw [if_neg h]
    cases hf : fs (resolveCredentialsPath env) <;> simp_all
  · intro p hp
    simp [resolveCredentialsPath, hp]

/-- C9 witness: with the environment override `/etc/creds`, a directory at
that path is a config error; a file there reports `true`, absence reports
`false`. -/
theorem c9_exists_check_witness :
    MemGPTCredentials.existsCheck (some "/etc/creds") (fun _ => .dir) =
      .error "Credentials path /etc/creds cannot be set to a directory." ∧
    MemGPTCredentials.existsCheck (some "/etc/creds") (fun _ => .file) = .ok true ∧
    MemGPTCredentials.existsCheck (some "/etc/creds") (fun _ => .absent) = .ok false :=
  ⟨(c9_exists_check (some "/etc/creds") (fun _ => .dir)).1 rfl,
   (c9_exists_check (some "/etc/creds") (fun _ => .file)).2.1 (by decide),
   (c9_exists_check (some "/etc/creds") (fun _ => .absent)).2.1 (by decide)⟩
